import Mathlib

/-!
Formal model of `src/load_balancer.py` (load balancing calculator for
industrial power distribution) and of the dashboard test fixture in
`src/tests/test_dashboard_ui.py`.

Zone loads are modelled as rationals (`ℚ`); the Python `round(x, 2)`
builtin is modelled as round-half-to-even at two decimal places
(`round2`), and Python float formatting of two-decimal values by
`formatCenti`.  Operations that can raise in Python (`ZeroDivisionError`
from `calculate_ideal_load` on an empty list, `ValueError` from the
`ZoneLoad` constructor) are modelled in the `Except String` monad.
-/

namespace LoadBalancer

/-- Safe threshold per circuit zone in kW (`MAX_LOAD_PER_ZONE` in the source). -/
def MAX_LOAD_PER_ZONE : ℚ := 100.0

/-- Allowed difference between highest and lowest loads in kW
(`IDEAL_VARIANCE` in the source; declared but unused by the logic). -/
def IDEAL_VARIANCE : ℚ := 15.0

/-- A circuit zone and its electrical load in kW (`class ZoneLoad`). -/
structure ZoneLoad where
  name : String
  load : ℚ
deriving DecidableEq

/-- Model of `ZoneLoad.__init__`: raises `ValueError` when `load < 0`,
otherwise stores the fields unchanged. -/
def ZoneLoad.construct (name : String) (load : ℚ) : Except String ZoneLoad :=
  if load < 0 then
    Except.error ("Load for zone \x27" ++ name ++ "\x27 cannot be negative.")
  else
    Except.ok ⟨name, load⟩

/-- Model of `detect_overloads`: the zones whose load exceeds the threshold,
in input order (a Python list comprehension, i.e. a filter). -/
def detect_overloads (zones : List ZoneLoad) : List ZoneLoad :=
  zones.filter (fun z => decide (MAX_LOAD_PER_ZONE < z.load))

/-- Model of `calculate_total_load`: Python `sum` is a left fold from 0. -/
def calculate_total_load (zones : List ZoneLoad) : ℚ :=
  zones.foldl (fun acc z => acc + z.load) 0

/-- Round a rational to the nearest integer, ties to even (the rounding
rule of the Python `round` builtin). -/
def roundHalfEven (q : ℚ) : ℤ :=
  if q - ⌊q⌋ < 1/2 then ⌊q⌋
  else if 1/2 < q - ⌊q⌋ then ⌊q⌋ + 1
  else if ⌊q⌋ % 2 = 0 then ⌊q⌋ else ⌊q⌋ + 1

/-- Model of Python `round(q, 2)`: round half to even at two decimals. -/
def round2 (q : ℚ) : ℚ :=
  (roundHalfEven (100 * q) : ℚ) / 100

/-- Model of `calculate_ideal_load`: `round(total / len(zones), 2)`.
Dividing by `len(zones)` raises `ZeroDivisionError` when the list is
empty, modelled as the error branch. -/
def calculate_ideal_load (zones : List ZoneLoad) : Except String ℚ :=
  if zones.length = 0 then
    Except.error ("ZeroDivisionError: division by zero")
  else
    Except.ok (round2 (calculate_total_load zones / (zones.length : ℚ)))

/-- Print `n` hundredths the way Python prints the corresponding
two-decimal float: integer part, a dot, then the fractional digits with
a trailing zero dropped (`3625 ↦ 36.25`, `3605 ↦ 36.05`, `3620 ↦ 36.2`,
`3600 ↦ 36.0`). -/
def formatCentiInt (n : ℤ) : String :=
  let s := if n < 0 then "-" else ""
  let m := n.natAbs
  let ip := m / 100
  let fr := m % 100
  if fr = 0 then s ++ toString ip ++ ".0"
  else if fr % 10 = 0 then s ++ toString ip ++ "." ++ toString (fr / 10)
  else if fr < 10 then s ++ toString ip ++ ".0" ++ toString fr
  else s ++ toString ip ++ "." ++ toString fr

/-- Print a rational that is an integer multiple of 1/100 the way Python
prints the corresponding two-decimal float. -/
def formatCenti (q : ℚ) : String :=
  formatCentiInt ⌊100 * q⌋

/-- The loop body of `recommend_redistribution` for a single zone:
`diff = round(z.load - ideal, 2)`; skip when `abs(diff) < 1.0`,
otherwise produce the reduce/increase directive. -/
def adjustment (ideal : ℚ) (z : ZoneLoad) : Option (String × String) :=
  let diff := round2 (z.load - ideal)
  if |diff| < 1 then none
  else if 0 < diff then some (z.name, "Reduce load by " ++ formatCenti diff ++ " kW")
  else some (z.name, "Increase load by " ++ formatCenti (-diff) ++ " kW")

/-- Model of `recommend_redistribution`: compute the ideal load (which
can raise on an empty list), then run the adjustment loop over the zones
in input order. -/
def recommend_redistribution (zones : List ZoneLoad) :
    Except String (List (String × String)) :=
  match calculate_ideal_load zones with
  | Except.error e => Except.error e
  | Except.ok ideal => Except.ok (zones.filterMap (adjustment ideal))

/-- Model of `generate_report`: overloads and the ideal load are computed
before any line is emitted, so an empty list raises before producing any
output. -/
def generate_report (zones : List ZoneLoad) : Except String String :=
  match calculate_ideal_load zones with
  | Except.error e => Except.error e
  | Except.ok ideal =>
    match recommend_redistribution zones with
    | Except.error e => Except.error e
    | Except.ok adjustments =>
      let overloads := detect_overloads zones
      let header := ["----- Load Balancing Analysis Report -----\n", "Zone Loads:"]
      let zoneLines := zones.map (fun z => "  - " ++ z.name ++ ": " ++ formatCenti z.load ++ " kW")
      let totals := ["\nTotal Load: " ++ formatCenti (calculate_total_load zones) ++ " kW",
                     "Ideal Load Per Zone: " ++ formatCenti ideal ++ " kW\n"]
      let overloadLines :=
        if overloads.isEmpty then ["No overloaded zones detected. ✔️"]
        else ("⚠️  Overloaded Zones Detected:") ::
          overloads.map (fun z => "   - " ++ z.name ++ " (" ++ formatCenti z.load ++ " kW)")
      let adjLines :=
        if adjustments.isEmpty then ["\nLoad distribution is optimal. ✔️"]
        else ("\nRecommended Adjustments:") ::
          adjustments.map (fun p => "   - " ++ p.1 ++ ": " ++ p.2)
      Except.ok (String.intercalate "\n" (header ++ zoneLines ++ totals ++ overloadLines ++ adjLines))

/-- The directive the specification prescribes for a non-skipped zone:
reduce by the rounded diff when it is positive, otherwise increase by its
negation (spec-side definition, compared with `adjustment` in C5). -/
def specDirective (ideal : ℚ) (z : ZoneLoad) : String × String :=
  if 0 < round2 (z.load - ideal) then
    (z.name, "Reduce load by " ++ formatCenti (round2 (z.load - ideal)) ++ " kW")
  else
    (z.name, "Increase load by " ++ formatCenti (-(round2 (z.load - ideal))) ++ " kW")

/-- The demo scenario from the `__main__` block (`sample_zones`). -/
def sample_zones : List ZoneLoad :=
  [⟨"Zone A", 120.0⟩, ⟨"Zone B", 80.0⟩, ⟨"Zone C", 95.0⟩, ⟨"Zone D", 40.0⟩]

/-- The `expected_values` fixture of `src/tests/test_dashboard_ui.py`:
zone id, expected displayed load, expected status string. -/
def expected_values : List (String × ℚ × String) :=
  [("A", 120.0, "OVERLOAD"), ("B", 80.0, "OK"),
   ("C", 95.0, "OVERLOAD"), ("D", 40.0, "OK")]

/-! ### Helper lemmas -/

lemma foldl_load (zones : List ZoneLoad) (acc : ℚ) :
    zones.foldl (fun a z => a + z.load) acc = acc + (zones.map ZoneLoad.load).sum := by
  induction zones generalizing acc with
  | nil => simp
  | cons z zs ih => simp [List.foldl_cons, ih, add_assoc]

lemma total_eq_sum (zones : List ZoneLoad) :
    calculate_total_load zones = (zones.map ZoneLoad.load).sum := by
  simpa [calculate_total_load] using foldl_load zones 0

lemma total_sample : calculate_total_load sample_zones = 335 := by
  rw [total_eq_sum]
  norm_num [sample_zones]

lemma roundHalfEven_intCast (n : ℤ) : roundHalfEven (n : ℚ) = n := by
  unfold roundHalfEven
  rw [Int.floor_intCast]
  norm_num

lemma round2_centi (d : ℤ) : round2 ((d : ℚ) / 100) = (d : ℚ) / 100 := by
  unfold round2
  rw [show (100 : ℚ) * ((d : ℚ) / 100) = (d : ℚ) by ring, roundHalfEven_intCast]

lemma round2_of_eq_centi (q : ℚ) (d : ℤ) (h : q = (d : ℚ) / 100) :
    round2 q = (d : ℚ) / 100 := by
  rw [h, round2_centi]

lemma formatCenti_centi (d : ℤ) : formatCenti ((d : ℚ) / 100) = formatCentiInt d := by
  unfold formatCenti
  rw [show (100 : ℚ) * ((d : ℚ) / 100) = (d : ℚ) by ring, Int.floor_intCast]

lemma calculate_ideal_load_ne_nil (zones : List ZoneLoad) (h : zones ≠ []) :
    calculate_ideal_load zones =
      Except.ok (round2 (calculate_total_load zones / (zones.length : ℚ))) := by
  unfold calculate_ideal_load
  rw [if_neg (by simpa [List.length_eq_zero] using h)]

lemma ideal_sample : calculate_ideal_load sample_zones = Except.ok 83.75 := by
  rw [calculate_ideal_load_ne_nil _ (by simp [sample_zones]), total_sample]
  have hlen : (sample_zones.length : ℚ) = 4 := by simp [sample_zones]
  rw [hlen, round2_of_eq_centi _ 8375 (by norm_num)]
  norm_num

lemma adjustment_reduce (ideal : ℚ) (z : ZoneLoad) (d : ℤ)
    (hd : round2 (z.load - ideal) = (d : ℚ) / 100) (h1 : 100 ≤ d) :
    adjustment ideal z = some (z.name, "Reduce load by " ++ formatCentiInt d ++ " kW") := by
  have hge : (1 : ℚ) ≤ (d : ℚ) / 100 := by
    rw [le_div_iff₀ (by norm_num : (0 : ℚ) < 100), one_mul]
    exact_mod_cast h1
  have hpos : (0 : ℚ) < (d : ℚ) / 100 := lt_of_lt_of_le one_pos hge
  have habs : ¬ (|(d : ℚ) / 100| < 1) := not_lt.mpr (by rw [abs_of_pos hpos]; exact hge)
  simp only [adjustment, hd]
  rw [if_neg habs, if_pos hpos, formatCenti_centi]

lemma adjustment_increase (ideal : ℚ) (z : ZoneLoad) (d : ℤ)
    (hd : round2 (z.load - ideal) = (d : ℚ) / 100) (h1 : d ≤ -100) :
    adjustment ideal z = some (z.name, "Increase load by " ++ formatCentiInt (-d) ++ " kW") := by
  have hle : (d : ℚ) / 100 ≤ -1 := by
    rw [div_le_iff₀ (by norm_num : (0 : ℚ) < 100)]
    exact_mod_cast (by exact_mod_cast h1 : (d : ℚ) ≤ -100)
  have hneg : (d : ℚ) / 100 < 0 := lt_of_le_of_lt hle (by norm_num)
  have habs : ¬ (|(d : ℚ) / 100| < 1) := by
    rw [abs_of_neg hneg]
    exact not_lt.mpr (by linarith)
  have hnpos : ¬ (0 : ℚ) < (d : ℚ) / 100 := not_lt.mpr (le_of_lt hneg)
  simp only [adjustment, hd]
  rw [if_neg habs, if_neg hnpos,
    show -((d : ℚ) / 100) = ((-d : ℤ) : ℚ) / 100 by push_cast; ring, formatCenti_centi]

lemma adjustment_none (ideal : ℚ) (z : ZoneLoad) (d : ℤ)
    (hd : round2 (z.load - ideal) = (d : ℚ) / 100) (h1 : -100 < d) (h2 : d < 100) :
    adjustment ideal z = none := by
  have habs : |(d : ℚ) / 100| < 1 := by
    rw [abs_div, abs_of_pos (by norm_num : (0 : ℚ) < 100), div_lt_one (by norm_num : (0 : ℚ) < 100)]
    exact_mod_cast abs_lt.mpr ⟨h1, h2⟩
  simp only [adjustment, hd]
  rw [if_pos habs]

lemma detect_single_pos (z : ZoneLoad) (h : MAX_LOAD_PER_ZONE < z.load) :
    detect_overloads [z] = [z] := by
  simp [detect_overloads, h]

lemma detect_single_neg (z : ZoneLoad) (h : ¬ MAX_LOAD_PER_ZONE < z.load) :
    detect_overloads [z] = [] := by
  simp [detect_overloads, h]

lemma filterMap_adjustment (ideal : ℚ) (zones : List ZoneLoad) :
    zones.filterMap (adjustment ideal) =
      (zones.filter (fun z => decide (1 ≤ |round2 (z.load - ideal)|))).map
        (specDirective ideal) := by
  induction zones with
  | nil => rfl
  | cons z zs ih =>
    rw [List.filterMap_cons, List.filter_cons]
    by_cases h : |round2 (z.load - ideal)| < 1
    · have hz : adjustment ideal z = none := by simp [adjustment, h]
      rw [hz]
      simp [not_le.mpr h, ih]
    · have hle : 1 ≤ |round2 (z.load - ideal)| := not_lt.mp h
      have hz : adjustment ideal z = some (specDirective ideal z) := by
        simp only [adjustment, specDirective, if_neg h]
        by_cases hp : 0 < round2 (z.load - ideal) <;> simp [hp]
      rw [hz]
      simp [hle, ih]

lemma detect_sample : detect_overloads sample_zones = [⟨"Zone A", 120.0⟩] := by
  have h1 : MAX_LOAD_PER_ZONE < (120.0 : ℚ) := by norm_num [MAX_LOAD_PER_ZONE]
  have h2 : ¬ MAX_LOAD_PER_ZONE < (80.0 : ℚ) := by norm_num [MAX_LOAD_PER_ZONE]
  have h3 : ¬ MAX_LOAD_PER_ZONE < (95.0 : ℚ) := by norm_num [MAX_LOAD_PER_ZONE]
  have h4 : ¬ MAX_LOAD_PER_ZONE < (40.0 : ℚ) := by norm_num [MAX_LOAD_PER_ZONE]
  simp only [detect_overloads, sample_zones, List.filter_cons, List.filter_nil]
  rw [if_pos (by rw [decide_eq_true_eq]; exact h1), if_neg (by rw [decide_eq_true_eq]; exact h2)]
  rw [if_neg (by rw [decide_eq_true_eq]; exact h3), if_neg (by rw [decide_eq_true_eq]; exact h4)]

lemma recommend_sample :
    recommend_redistribution sample_zones = Except.ok
      [("Zone A", "Reduce load by 36.25 kW"),
       ("Zone B", "Increase load by 3.75 kW"),
       ("Zone C", "Reduce load by 11.25 kW"),
       ("Zone D", "Increase load by 43.75 kW")] := by
  have hA : adjustment 83.75 ⟨"Zone A", 120.0⟩ = some ("Zone A", "Reduce load by 36.25 kW") := by
    rw [adjustment_reduce _ _ 3625 (round2_of_eq_centi _ _ (by norm_num)) (by norm_num)]
    decide
  have hB : adjustment 83.75 ⟨"Zone B", 80.0⟩ = some ("Zone B", "Increase load by 3.75 kW") := by
    rw [adjustment_increase _ _ (-375) (round2_of_eq_centi _ _ (by norm_num)) (by norm_num)]
    decide
  have hC : adjustment 83.75 ⟨"Zone C", 95.0⟩ = some ("Zone C", "Reduce load by 11.25 kW") := by
    rw [adjustment_reduce _ _ 1125 (round2_of_eq_centi _ _ (by norm_num)) (by norm_num)]
    decide
  have hD : adjustment 83.75 ⟨"Zone D", 40.0⟩ = some ("Zone D", "Increase load by 43.75 kW") := by
    rw [adjustment_increase _ _ (-4375) (round2_of_eq_centi _ _ (by norm_num)) (by norm_num)]
    decide
  rw [recommend_redistribution, ideal_sample]
  simp only [List.filterMap_cons, sample_zones, hA, hB, hC, hD, List.filterMap_nil]

/-! ### Claim theorems -/

/-- C1 counterexample: on the sample zones `detect_overloads` returns only
Zone A, not `[Zone A, Zone C]` as the claim states — Zone C draws 95.0 kW,
which does not exceed the 100.0 kW threshold. -/
theorem C1_counterexample :
    detect_overloads sample_zones = [⟨"Zone A", 120.0⟩] ∧
    detect_overloads sample_zones ≠ [⟨"Zone A", 120.0⟩, ⟨"Zone C", 95.0⟩] := by
  refine ⟨detect_sample, ?_⟩
  rw [detect_sample]
  simp

/-- C1 (amended): on the sample zones the total load is 335.0, the ideal
load is 83.75, the only overloaded zone is Zone A, and the recommendation
directives are exactly those the claim lists, in input order. -/
theorem C1_sample_example :
    calculate_total_load sample_zones = 335 ∧
    calculate_ideal_load sample_zones = Except.ok 83.75 ∧
    detect_overloads sample_zones = [⟨"Zone A", 120.0⟩] ∧
    recommend_redistribution sample_zones = Except.ok
      [("Zone A", "Reduce load by 36.25 kW"),
       ("Zone B", "Increase load by 3.75 kW"),
       ("Zone C", "Reduce load by 11.25 kW"),
       ("Zone D", "Increase load by 43.75 kW")] :=
  ⟨total_sample, ideal_sample, detect_sample, recommend_sample⟩

/-- C2: `detect_overloads` returns a subsequence of its input (so the
original order is preserved), its members are exactly the input zones
with load strictly above 100.0, and a zone with load exactly 100.0 is
never in the result. -/
theorem C2_detect_overloads_characterization (zones : List ZoneLoad) :
    (detect_overloads zones).Sublist zones ∧
    (∀ z : ZoneLoad, z ∈ detect_overloads zones ↔ z ∈ zones ∧ 100 < z.load) ∧
    (∀ z : ZoneLoad, z ∈ zones → z.load = 100 → z ∉ detect_overloads zones) := by
  have h100 : MAX_LOAD_PER_ZONE = 100 := by norm_num [MAX_LOAD_PER_ZONE]
  refine ⟨List.filter_sublist _, fun z => ?_, fun z hz hload hmem => ?_⟩
  · simp [detect_overloads, List.mem_filter, h100]
  · rw [detect_overloads] at hmem
    have hb := (List.mem_filter.mp hmem).2
    rw [decide_eq_true_eq, h100, hload] at hb
    exact lt_irrefl _ hb

/-- C2 witness: a zone at exactly 100.0 kW is not flagged. -/
theorem C2_witness :
    (⟨"Zone X", (100 : ℚ)⟩ : ZoneLoad) ∉ detect_overloads [⟨"Zone X", (100 : ℚ)⟩] :=
  (C2_detect_overloads_characterization [⟨"Zone X", (100 : ℚ)⟩]).2.2 ⟨"Zone X", (100 : ℚ)⟩
    (List.mem_cons_self _ _) rfl

/-- C3: the dashboard fixture contradicts the core overload rule: its
entry for zone C expects status "OVERLOAD" at 95.0 kW, but 95.0 does not
exceed the 100.0 kW threshold and `detect_overloads` does not flag a zone
with that load. -/
theorem C3_fixture_contradicts_core :
    ("C", (95.0 : ℚ), "OVERLOAD") ∈ expected_values ∧
    ¬ (100 < (95.0 : ℚ)) ∧
    detect_overloads [⟨"C", 95.0⟩] = [] := by
  refine ⟨?_, by norm_num, detect_single_neg _ (by norm_num [MAX_LOAD_PER_ZONE])⟩
  rw [expected_values]
  exact List.mem_cons_of_mem _ (List.mem_cons_of_mem _ (List.mem_cons_self _ _))

/-- C4 counterexample: a zone whose raw difference from the ideal load is
0.999 kW does receive a directive, because `round(0.999, 2)` is 1.0 and
the tolerance test `abs(diff) < 1.0` fails on the rounded value. -/
theorem C4_counterexample :
    calculate_ideal_load [⟨"A", 10.999⟩, ⟨"B", 9.001⟩] = Except.ok 10 ∧
    (10.999 : ℚ) - 10 = 0.999 ∧
    adjustment 10 ⟨"A", 10.999⟩ = some ("A", "Reduce load by 1.0 kW") ∧
    adjustment 10 ⟨"A", 10.999⟩ ≠ none := by
  have htot : calculate_total_load [⟨"A", 10.999⟩, ⟨"B", 9.001⟩] = 20 := by
    rw [total_eq_sum]
    norm_num
  have hlen : ((([⟨"A", 10.999⟩, ⟨"B", 9.001⟩] : List ZoneLoad)).length : ℚ) = 2 := by
    simp
  have hideal : calculate_ideal_load [⟨"A", 10.999⟩, ⟨"B", 9.001⟩] = Except.ok 10 := by
    rw [calculate_ideal_load_ne_nil _ (by simp), htot, hlen,
      round2_of_eq_centi _ 1000 (by norm_num)]
    norm_num
  have hre : roundHalfEven ((999 : ℚ) / 10) = 100 := by
    unfold roundHalfEven
    have hf : ⌊(999 : ℚ) / 10⌋ = 99 := by norm_num
    rw [hf]
    norm_num
  have hd : round2 ((10.999 : ℚ) - 10) = ((100 : ℤ) : ℚ) / 100 := by
    unfold round2
    rw [show (100 : ℚ) * ((10.999 : ℚ) - 10) = (999 : ℚ) / 10 by norm_num, hre]
  have hadjA : adjustment 10 ⟨"A", 10.999⟩ = some ("A", "Reduce load by 1.0 kW") :=
    (adjustment_reduce 10 ⟨"A", 10.999⟩ 100 hd (by norm_num)).trans (by decide)
  refine ⟨hideal, by norm_num, hadjA, ?_⟩
  rw [hadjA]
  simp

/-- C4 (amended): for a non-empty zone list with ideal load `ideal`, the
recommendation output is the adjustment loop over the zones, and a zone
receives no directive exactly when the rounded diff
`round(load - ideal, 2)` has absolute value strictly below 1.0; a rounded
diff of exactly ±1.0 therefore receives a directive, and so does a raw
diff of 0.999, which rounds to 1.0. -/
theorem C4_amended_tolerance (zones : List ZoneLoad) (ideal : ℚ)
    (h : calculate_ideal_load zones = Except.ok ideal) (z : ZoneLoad) (_hz : z ∈ zones) :
    recommend_redistribution zones = Except.ok (zones.filterMap (adjustment ideal)) ∧
    (adjustment ideal z = none ↔ |round2 (z.load - ideal)| < 1) := by
  constructor
  · rw [recommend_redistribution, h]
  · by_cases hd : |round2 (z.load - ideal)| < 1
    · simp [adjustment, hd]
    · simp only [adjustment, if_neg hd]
      constructor
      · intro heq
        by_cases hp : 0 < round2 (z.load - ideal) <;> simp [hp] at heq
      · intro hlt
        exact absurd hlt hd

/-- C4 witness: the amended statement applied to the sample zones at
Zone B. -/
theorem C4_witness :
    recommend_redistribution sample_zones = Except.ok (sample_zones.filterMap (adjustment 83.75)) ∧
    (adjustment 83.75 ⟨"Zone B", 80.0⟩ = none ↔ |round2 ((80.0 : ℚ) - 83.75)| < 1) :=
  C4_amended_tolerance sample_zones 83.75 ideal_sample ⟨"Zone B", 80.0⟩
    (List.mem_cons_of_mem _ (List.mem_cons_self _ _))

/-- C5: for every non-empty zone list with ideal load `ideal`, the
recommendation output lists, in input order, exactly the non-skipped
zones, each paired with the directive the spec prescribes for its rounded
diff (reduce when positive, increase by the negation when negative). -/
theorem C5_order_and_directives (zones : List ZoneLoad) (ideal : ℚ)
    (h : calculate_ideal_load zones = Except.ok ideal) :
    recommend_redistribution zones = Except.ok
      ((zones.filter (fun z => decide (1 ≤ |round2 (z.load - ideal)|))).map
        (specDirective ideal)) := by
  rw [recommend_redistribution, h]
  show Except.ok (zones.filterMap (adjustment ideal)) = _
  rw [filterMap_adjustment]

/-- C5 witness: the statement applied to the sample zones. -/
theorem C5_witness :
    recommend_redistribution sample_zones = Except.ok
      ((sample_zones.filter (fun z => decide (1 ≤ |round2 (z.load - 83.75)|))).map
        (specDirective 83.75)) :=
  C5_order_and_directives sample_zones 83.75 ideal_sample

/-- C6: the ideal load fails with the division-by-zero error on the empty
zone list, and succeeds (returning the rounded mean) on every non-empty
list. -/
theorem C6_ideal_load_empty_and_nonempty :
    calculate_ideal_load ([] : List ZoneLoad) =
      Except.error ("ZeroDivisionError: division by zero") ∧
    ∀ zones : List ZoneLoad, zones ≠ [] →
      calculate_ideal_load zones =
        Except.ok (round2 (calculate_total_load zones / (zones.length : ℚ))) :=
  ⟨rfl, fun zones h => calculate_ideal_load_ne_nil zones h⟩

/-- C6 witness: the non-empty case applied to the sample zones. -/
theorem C6_witness :
    calculate_ideal_load sample_zones =
      Except.ok (round2 (calculate_total_load sample_zones / (sample_zones.length : ℚ))) :=
  C6_ideal_load_empty_and_nonempty.2 sample_zones (by simp [sample_zones])

/-- C7: on the empty zone list both the recommendation and the report fail
with the same division-by-zero error as the ideal load computation; neither
produces an empty adjustment list or a report. -/
theorem C7_empty_propagates :
    recommend_redistribution ([] : List ZoneLoad) =
      Except.error ("ZeroDivisionError: division by zero") ∧
    generate_report ([] : List ZoneLoad) =
      Except.error ("ZeroDivisionError: division by zero") ∧
    calculate_ideal_load ([] : List ZoneLoad) =
      Except.error ("ZeroDivisionError: division by zero") :=
  ⟨rfl, rfl, rfl⟩

/-- C8: construction fails with the invalid-load error exactly when the
load is negative, and succeeds for every non-negative load with any name,
storing the fields unchanged. -/
theorem C8_construct_validation (name : String) (load : ℚ) :
    (load < 0 → ZoneLoad.construct name load =
      Except.error ("Load for zone \x27" ++ name ++ "\x27 cannot be negative.")) ∧
    (0 ≤ load → ZoneLoad.construct name load = Except.ok ⟨name, load⟩) := by
  constructor
  · intro h
    simp only [ZoneLoad.construct]
    rw [if_pos h]
  · intro h
    simp only [ZoneLoad.construct]
    rw [if_neg (not_lt.mpr h)]

/-- C8 witness: the empty name with load 0 is accepted; a negative load
is rejected. -/
theorem C8_witness :
    ZoneLoad.construct "" 0 = Except.ok ⟨"", 0⟩ ∧
    ZoneLoad.construct "Z" (-1) =
      Except.error ("Load for zone \x27" ++ "Z" ++ "\x27 cannot be negative.") :=
  ⟨(C8_construct_validation "" 0).2 le_rfl,
   (C8_construct_validation "Z" (-1)).1 (by norm_num)⟩

/-- C9: for every non-empty zone list the ideal load is the total load
divided by the zone count, rounded to two decimals, and the
recommendation loop uses that identically rounded value for every diff. -/
theorem C9_ideal_load_rounded_mean (zones : List ZoneLoad) (h : zones ≠ []) :
    calculate_ideal_load zones =
      Except.ok (round2 (calculate_total_load zones / (zones.length : ℚ))) ∧
    recommend_redistribution zones = Except.ok
      (zones.filterMap
        (adjustment (round2 (calculate_total_load zones / (zones.length : ℚ))))) := by
  refine ⟨calculate_ideal_load_ne_nil zones h, ?_⟩
  rw [recommend_redistribution, calculate_ideal_load_ne_nil zones h]

/-- C9 witness: the statement applied to the sample zones. -/
theorem C9_witness :
    calculate_ideal_load sample_zones =
      Except.ok (round2 (calculate_total_load sample_zones / (sample_zones.length : ℚ))) ∧
    recommend_redistribution sample_zones = Except.ok
      (sample_zones.filterMap
        (adjustment (round2 (calculate_total_load sample_zones / (sample_zones.length : ℚ))))) :=
  C9_ideal_load_rounded_mean sample_zones (by simp [sample_zones])

/-- C10: the total load is the sum of the load fields, is 0 on the empty
list, and is invariant under permutation of the input. -/
theorem C10_total_load_sum (zones : List ZoneLoad) :
    calculate_total_load zones = (zones.map ZoneLoad.load).sum ∧
    calculate_total_load ([] : List ZoneLoad) = 0 ∧
    ∀ zs : List ZoneLoad, zones.Perm zs →
      calculate_total_load zones = calculate_total_load zs := by
  refine ⟨total_eq_sum zones, rfl, fun zs hp => ?_⟩
  rw [total_eq_sum, total_eq_sum]
  exact List.Perm.sum_eq (hp.map ZoneLoad.load)

/-- C10 witness: permutation invariance applied to the reversed sample. -/
theorem C10_witness :
    calculate_total_load sample_zones = calculate_total_load sample_zones.reverse :=
  (C10_total_load_sum sample_zones).2.2 sample_zones.reverse sample_zones.reverse_perm.symm

end LoadBalancer
